import Mathlib

/-!
Packet queue (`packets/queue.go`)

A shallow embedding of the capture queue: the `Queue` record, its constructor
`NewQueue`, one iteration of the capture `worker`, the injection path `Send`
and the lifecycle operation `Stop`.

Conventions of the embedding.

* `uint64` counters are natural numbers; every update is reduced modulo `2^64`.
* Go maps `map[string]T` are functions `String → Option T` (`none` = key absent).
* The capture handle is external; the embedding records the calls made on it
  (`Close` calls, `WritePacketData` arguments). The result of a write is an
  input of `Send`.
* The unbuffered channel `Activities` is the list of the values sent on it,
  oldest first (a receiver is assumed to take each value).
* The decoded packet is given by what the worker asks of it: its data, its
  layer names, and the optional Ethernet and IPv4 layers.
* `net.IP.String` is a parameter `str` of the worker.
* `System` takes a whole worker iteration as one step. `Sched` splits the
  iteration at the test of line 74, which the worker runs without the lock,
  so that `Stop` can fall between the test and lines 77-133.
-/

namespace packets

/-- A byte slice (`[]byte`, `net.IP`, `net.HardwareAddr`). -/
abbrev Bytes := List (Fin 256)

/-- Modulus of `uint64` arithmetic. -/
def u64 : Nat := 2 ^ 64

/-- Go map with string keys. -/
abbrev GoMap (α : Type) := String → Option α

/-- The statement `m[k] = v`. -/
def GoMap.set {α : Type} (m : GoMap α) (k : String) (v : α) : GoMap α :=
  fun x => if x = k then some v else m x

/-- The empty map, `make(map[string]T)`. -/
def GoMap.empty {α : Type} : GoMap α := fun _ => none

/-- Record `Activity` of the source. -/
structure Activity where
  IP : Bytes
  MAC : Bytes
  Source : Bool
deriving DecidableEq, Repr

/-- Record `Traffic` of the source. -/
structure Traffic where
  Sent : Nat
  Received : Nat
deriving DecidableEq, Repr

/-- The part of `bnet.Endpoint` the queue uses: the interface name, its own
address `iface.IP` and the subnet membership test `iface.Net.Contains`. -/
structure Endpoint where
  Name : String
  IP : Bytes
  Contains : Bytes → Bool

/-- The live capture handle, seen through the calls made on it. -/
structure Handle where
  closes : Nat
  writes : List Bytes
deriving DecidableEq, Repr

/-- Layer `layers.Ethernet`, the field the worker reads. -/
structure Ethernet where
  SrcMAC : Bytes
deriving DecidableEq, Repr

/-- Layer `layers.IPv4`, the fields the worker reads. -/
structure IPv4 where
  SrcIP : Bytes
  DstIP : Bytes
deriving DecidableEq, Repr

/-- A decoded packet: `pkt.Data()`, the names `layer.LayerType().String()` of
`pkt.Layers()` in order, `pkt.Layer(layers.LayerTypeEthernet)` and
`pkt.Layer(layers.LayerTypeIPv4)` (`none` = nil). -/
structure Packet where
  Data : Bytes
  Layers : List String
  Ethernet : Option Ethernet
  IPv4 : Option IPv4
deriving DecidableEq, Repr

/-- Record `Queue` of the source. The mutex `lock` is left out (every operation
below is one atomic step), and so is `source`, whose packets are the inputs of
the worker. -/
structure Queue where
  iface : Endpoint
  handle : Handle
  active : Bool
  Activities : List Activity
  Sent : Nat
  Received : Nat
  PktReceived : Nat
  Errors : Nat
  Protos : GoMap Nat
  Traffic : GoMap Traffic

/-- The record built at lines 46-59, with the handle returned by
`pcap.OpenLive` (no call made on it yet). -/
def Queue.init (iface : Endpoint) : Queue :=
  { iface := iface
    handle := { closes := 0, writes := [] }
    active := true
    Activities := []
    Sent := 0
    Received := 0
    PktReceived := 0
    Errors := 0
    Protos := GoMap.empty
    Traffic := GoMap.empty }

/-- Constructor `NewQueue`: `openErr` is the error returned by `pcap.OpenLive`
(`none` = nil). -/
def NewQueue (iface : Endpoint) (openErr : Option String) : Except String Queue :=
  match openErr with
  | some err => Except.error err
  | none => Except.ok (Queue.init iface)

/-- Body of the loop over `pktLayers` (lines 85-93) for one layer name. -/
def countProto (protos : GoMap Nat) (proto : String) : GoMap Nat :=
  if proto = "DecodeFailure" ∨ proto = "Payload" then protos
  else
    let protos1 := if (protos proto).isSome = false then protos.set proto 0 else protos
    protos1.set proto ((((protos1 proto).getD 0) + 1) % u64)

/-- The loop over `pktLayers` (lines 84-94). -/
def gatherProtos (protos : GoMap Nat) (pktLayers : List String) : GoMap Nat :=
  pktLayers.foldl countProto protos

/-- Lines 111-116: create the entry of `addr` when absent, then add `pktSize`
to its `Sent`. The entry is present at the second step, so the `none` arm of
the match is never taken. -/
def trafficSent (traffic : GoMap Traffic) (addr : String) (pktSize : Nat) : GoMap Traffic :=
  let traffic1 :=
    if (traffic addr).isSome = false then traffic.set addr { Sent := 0, Received := 0 }
    else traffic
  match traffic1 addr with
  | some t => traffic1.set addr { t with Sent := (t.Sent + pktSize) % u64 }
  | none => traffic1

/-- Lines 126-131: create the entry of `addr` when absent, then add `pktSize`
to its `Received`. -/
def trafficReceived (traffic : GoMap Traffic) (addr : String) (pktSize : Nat) :
    GoMap Traffic :=
  let traffic1 :=
    if (traffic addr).isSome = false then traffic.set addr { Sent := 0, Received := 0 }
    else traffic
  match traffic1 addr with
  | some t => traffic1.set addr { t with Received := (t.Received + pktSize) % u64 }
  | none => traffic1

/-- Lines 104-117: the source-side check of one packet. -/
def checkSrc (str : Bytes → String) (q : Queue) (eth : Ethernet) (ip4 : IPv4)
    (pktSize : Nat) : Queue :=
  if q.iface.IP ≠ ip4.SrcIP ∧ q.iface.Contains ip4.SrcIP = true then
    { q with
      Activities := q.Activities ++ [{ IP := ip4.SrcIP, MAC := eth.SrcMAC, Source := true }]
      Traffic := trafficSent q.Traffic (str ip4.SrcIP) pktSize }
  else q

/-- Lines 119-132: the destination-side check of one packet. -/
def checkDst (str : Bytes → String) (q : Queue) (eth : Ethernet) (ip4 : IPv4)
    (pktSize : Nat) : Queue :=
  if q.iface.IP ≠ ip4.DstIP ∧ q.iface.Contains ip4.DstIP = true then
    { q with
      Activities := q.Activities ++ [{ IP := ip4.DstIP, MAC := eth.SrcMAC, Source := false }]
      Traffic := trafficReceived q.Traffic (str ip4.DstIP) pktSize }
  else q

/-- Lines 77-133: the body of the worker loop once the `active` test passed. -/
def workerBody (str : Bytes → String) (q : Queue) (pkt : Packet) : Queue :=
  let pktSize := pkt.Data.length % u64
  let q1 : Queue :=
    { q with
      PktReceived := (q.PktReceived + 1) % u64
      Received := (q.Received + pktSize) % u64 }
  let q2 : Queue := { q1 with Protos := gatherProtos q1.Protos pkt.Layers }
  match pkt.Ethernet, pkt.IPv4 with
  | some eth, some ip4 => checkDst str (checkSrc str q2 eth ip4 pktSize) eth ip4 pktSize
  | _, _ => q2

/-- One iteration of `worker` (lines 73-134) on the packet `pkt`: `none` when
the worker returns because the queue is not active, else the state after the
iteration. -/
def workerStep (str : Bytes → String) (q : Queue) (pkt : Packet) : Option Queue :=
  if q.active = false then none else some (workerBody str q pkt)

/-- The message of the error `Send` returns on a queue that is not active. -/
def inactiveError : String := "Packet queue is not active."

/-- Method `Send` (lines 137-152): `werr` is the error returned by
`handle.WritePacketData(raw)` (`none` = nil). Returns the new state and the
returned error. -/
def Queue.Send (q : Queue) (raw : Bytes) (werr : Option String) : Queue × Option String :=
  if q.active = true then
    let q1 : Queue := { q with handle := { q.handle with writes := q.handle.writes ++ [raw] } }
    match werr with
    | some err => ({ q1 with Sent := (q1.Sent + raw.length % u64) % u64 }, some err)
    | none => ({ q1 with Errors := (q1.Errors + 1) % u64 }, none)
  else (q, some inactiveError)

/-- Method `Stop` (lines 154-160). -/
def Queue.Stop (q : Queue) : Queue :=
  { q with handle := { q.handle with closes := q.handle.closes + 1 }, active := false }

/-- The queue together with its worker goroutine: `running` is false once the
worker has returned. -/
structure System where
  q : Queue
  running : Bool

/-- What can happen to a queue: the packet source delivers a packet to the
worker, a caller invokes `Send` (with the outcome of the write), a caller
invokes `Stop`. -/
inductive Op where
  | packet (pkt : Packet)
  | send (raw : Bytes) (werr : Option String)
  | stop

/-- One operation on the system. A packet delivered after the worker has
returned is not processed. -/
def System.step (str : Bytes → String) (s : System) : Op → System
  | Op.packet pkt =>
    if s.running = true then
      match workerStep str s.q pkt with
      | some q1 => { s with q := q1 }
      | none => { s with running := false }
    else s
  | Op.send raw werr => { s with q := (s.q.Send raw werr).1 }
  | Op.stop => { s with q := s.q.Stop }

/-- A sequence of operations, in order. -/
def System.run (str : Bytes → String) (s : System) (ops : List Op) : System :=
  ops.foldl (System.step str) s

/-- A queue returned by `NewQueue` with its worker started (`go q.worker()`). -/
def System.start (q : Queue) : System :=
  { q := q, running := true }

/-- The activities sent on the channel between the states `before` and
`after`. -/
def published (before after : Queue) : List Activity :=
  after.Activities.drop before.Activities.length

/-- Value of `Sent` under key `k`, `0` when the key is absent. -/
def sentOf (traffic : GoMap Traffic) (k : String) : Nat :=
  match traffic k with
  | some t => t.Sent
  | none => 0

/-- Value of `Received` under key `k`, `0` when the key is absent. -/
def receivedOf (traffic : GoMap Traffic) (k : String) : Nat :=
  match traffic k with
  | some t => t.Received
  | none => 0

/-- The predicate of the invariant: no sentinel name is a key of `Protos`. -/
def noSentinelKey (q : Queue) : Prop :=
  q.Protos "DecodeFailure" = none ∧ q.Protos "Payload" = none

/-- Dotted-decimal text of a four-byte address, which is what `net.IP.String`
prints for it. It stands for the parameter `str` in the examples below, whose
addresses all have four bytes; other lengths print `?` here. -/
def dotted : Bytes → String
  | [a, b, c, d] =>
    toString a.val ++ "." ++ toString b.val ++ "." ++ toString c.val ++ "." ++ toString d.val
  | _ => "?"

/-- Example interface: address `10.0.0.1` on the subnet `10.0.0.0/24`. -/
def exIface : Endpoint :=
  { Name := "eth0"
    IP := [10, 0, 0, 1]
    Contains := fun ip =>
      match ip with
      | [a, b, c, _] => decide (a = 10 ∧ b = 0 ∧ c = 0)
      | _ => false }

/-- Example queue: the one `NewQueue` returns for `exIface`. -/
def exQueue : Queue := Queue.init exIface

/-- Example packet: 100 bytes, Ethernet/IPv4/TCP, from `10.0.0.5` to
`8.8.8.8`. -/
def exPacket : Packet :=
  { Data := List.replicate 100 0
    Layers := ["Ethernet", "IPv4", "TCP", "Payload"]
    Ethernet := some { SrcMAC := [0, 17, 34, 51, 68, 85] }
    IPv4 := some { SrcIP := [10, 0, 0, 5], DstIP := [8, 8, 8, 8] } }

/-- Example packet: 60 bytes of IPv4 carried in IPv4 (protocol 4), from the
interface itself to `8.8.8.8`; the layer name `IPv4` occurs twice. -/
def exTunnel : Packet :=
  { Data := List.replicate 60 0
    Layers := ["Ethernet", "IPv4", "IPv4", "Payload"]
    Ethernet := some { SrcMAC := [0, 17, 34, 51, 68, 85] }
    IPv4 := some { SrcIP := [10, 0, 0, 1], DstIP := [8, 8, 8, 8] } }

/-- Example packet: 80 bytes between two hosts of the subnet, from `10.0.0.5`
to `10.0.0.7`. -/
def exLocal : Packet :=
  { Data := List.replicate 80 0
    Layers := ["Ethernet", "IPv4", "UDP", "Payload"]
    Ethernet := some { SrcMAC := [0, 17, 34, 51, 68, 85] }
    IPv4 := some { SrcIP := [10, 0, 0, 5], DstIP := [10, 0, 0, 7] } }

/-- Example payload for `Send`: four bytes. -/
def exRaw : Bytes := [222, 173, 190, 239]

/-- The twelve bytes that precede an IPv4 address in its 16-byte form
(`v4InV6Prefix` of the Go library). -/
def v4InV6Prefix : Bytes := [0, 0, 0, 0, 0, 0, 0, 0, 0, 0, 255, 255]

/-- Method `net.IP.Equal` of the Go library: whether two byte slices are the
same address. A 4-byte address equals its 16-byte form. -/
def IPEqual (ip x : Bytes) : Bool :=
  if ip.length = x.length then decide (ip = x)
  else if ip.length = 4 ∧ x.length = 16 then
    decide (x.take 12 = v4InV6Prefix) && decide (ip = x.drop 12)
  else if ip.length = 16 ∧ x.length = 4 then
    decide (ip.take 12 = v4InV6Prefix) && decide (ip.drop 12 = x)
  else false

/-- Example interface: address `10.0.0.1` held in the 16-byte form (the form
`net.ParseIP` returns) on the subnet `10.0.0.0/24`. -/
def exIface16 : Endpoint :=
  { Name := "eth0"
    IP := v4InV6Prefix ++ [10, 0, 0, 1]
    Contains := fun ip =>
      match ip with
      | [a, b, c, _] => decide (a = 10 ∧ b = 0 ∧ c = 0)
      | _ => false }

/-- Example queue: the one `NewQueue` returns for `exIface16`. -/
def exQueue16 : Queue := Queue.init exIface16

/-- Example packet: 80 bytes sent by the interface itself, from `10.0.0.1`
(4 bytes, as the IPv4 layer holds it) to `8.8.8.8`. -/
def exOwn : Packet :=
  { Data := List.replicate 80 0
    Layers := ["Ethernet", "IPv4", "UDP", "Payload"]
    Ethernet := some { SrcMAC := [0, 17, 34, 51, 68, 85] }
    IPv4 := some { SrcIP := [10, 0, 0, 1], DstIP := [8, 8, 8, 8] } }

/-- The queue and its worker goroutine at the grain of the test of line 74.
The worker takes no lock, so `Stop` can run between that test and the rest of
the iteration: `pending` is the packet of an iteration that has passed the
test and has not yet run lines 77-133. -/
structure Sched where
  q : Queue
  running : Bool
  pending : Option Packet

/-- The events of the finer grain: the worker receives a packet from the
source and runs the test of line 74; the worker runs lines 77-133 on the
pending packet; a caller invokes `Send`; a caller invokes `Stop`. -/
inductive Event where
  | receive (pkt : Packet)
  | process
  | send (raw : Bytes) (werr : Option String)
  | stop

/-- One event. The worker receives a packet only between two iterations; the
test of line 74 makes it return when the queue is not active. Lines 77-133
neither read nor write what `Send` and `Stop` write, so they are taken as one
event. -/
def Sched.step (str : Bytes → String) (s : Sched) : Event → Sched
  | Event.receive pkt =>
    if s.running = true ∧ s.pending.isNone = true then
      if s.q.active = false then { s with running := false }
      else { s with pending := some pkt }
    else s
  | Event.process =>
    match s.pending with
    | some pkt => { s with q := workerBody str s.q pkt, pending := none }
    | none => s
  | Event.send raw werr => { s with q := (s.q.Send raw werr).1 }
  | Event.stop => { s with q := s.q.Stop }

/-- A sequence of events, in order. -/
def Sched.run (str : Bytes → String) (s : Sched) (evs : List Event) : Sched :=
  evs.foldl (Sched.step str) s

/-- A queue with its worker started and waiting for a packet. -/
def Sched.start (q : Queue) : Sched :=
  { q := q, running := true, pending := none }

theorem GoMap.set_same {α : Type} (m : GoMap α) (k : String) (v : α) :
    m.set k v k = some v := by
  simp [GoMap.set]

theorem GoMap.set_other {α : Type} (m : GoMap α) (k x : String) (v : α) (h : x ≠ k) :
    m.set k v x = m x := by
  simp [GoMap.set, h]

/-- One layer name: the entry of `P` is rewritten when the name is `P` and is
not a sentinel name, and is untouched otherwise. -/
theorem countProto_apply (protos : GoMap Nat) (proto P : String) :
    countProto protos proto P =
      if proto = P ∧ proto ≠ "DecodeFailure" ∧ proto ≠ "Payload" then
        some (((protos P).getD 0 + 1) % u64)
      else protos P := by
  by_cases hs : proto = "DecodeFailure" ∨ proto = "Payload"
  · have hc : ¬ (proto = P ∧ proto ≠ "DecodeFailure" ∧ proto ≠ "Payload") := by
      rintro ⟨_, n1, n2⟩
      rcases hs with h | h
      · exact n1 h
      · exact n2 h
    simp only [countProto, if_pos hs, if_neg hc]
  · have hs1 : proto ≠ "DecodeFailure" := fun h => hs (Or.inl h)
    have hs2 : proto ≠ "Payload" := fun h => hs (Or.inr h)
    by_cases hP : proto = P
    · subst hP
      have hc : proto = proto ∧ proto ≠ "DecodeFailure" ∧ proto ≠ "Payload" := ⟨rfl, hs1, hs2⟩
      unfold countProto
      rw [if_neg hs, if_pos hc]
      cases hv : protos proto <;> simp [GoMap.set, hv]
    · have hP2 : P ≠ proto := fun h => hP h.symm
      have hc : ¬ (proto = P ∧ proto ≠ "DecodeFailure" ∧ proto ≠ "Payload") := fun h => hP h.1
      simp only [countProto, if_neg hs, if_neg hc]
      cases hv : protos proto <;> simp [GoMap.set, hP2]

/-- The whole layer loop: the entry of a name `P` that is not a sentinel grows
by the number of occurrences of `P` among the layer names. -/
theorem gatherProtos_apply (P : String) (h1 : P ≠ "DecodeFailure") (h2 : P ≠ "Payload") :
    ∀ (pktLayers : List String) (protos : GoMap Nat),
      gatherProtos protos pktLayers P =
        if pktLayers.count P = 0 then protos P
        else some (((protos P).getD 0 + pktLayers.count P) % u64) := by
  intro pktLayers
  induction pktLayers with
  | nil => intro protos; simp [gatherProtos]
  | cons x xs ih =>
    intro protos
    have hstep : gatherProtos protos (x :: xs) = gatherProtos (countProto protos x) xs := rfl
    rw [hstep, ih (countProto protos x), countProto_apply]
    by_cases hx : x = P
    · subst hx
      have hc : x = x ∧ x ≠ "DecodeFailure" ∧ x ≠ "Payload" := ⟨rfl, h1, h2⟩
      rw [if_pos hc, List.count_cons_self, Option.getD_some]
      by_cases hz : List.count x xs = 0
      · rw [if_pos hz, if_neg (Nat.succ_ne_zero _), hz]
      · rw [if_neg hz, if_neg (Nat.succ_ne_zero _), Nat.mod_add_mod]
        congr 2
        omega
    · have hc : ¬ (x = P ∧ x ≠ "DecodeFailure" ∧ x ≠ "Payload") := fun h => hx h.1
      have hb : (x == P) = false := by simpa using hx
      simp only [if_neg hc, List.count_cons, hb]
      simp

/-- The layer loop never creates an entry under a sentinel name. -/
theorem gatherProtos_sentinel (S : String) (hS : S = "DecodeFailure" ∨ S = "Payload") :
    ∀ (pktLayers : List String) (protos : GoMap Nat),
      gatherProtos protos pktLayers S = protos S := by
  intro pktLayers
  induction pktLayers with
  | nil => intro protos; rfl
  | cons x xs ih =>
    intro protos
    have hstep : gatherProtos protos (x :: xs) = gatherProtos (countProto protos x) xs := rfl
    rw [hstep, ih (countProto protos x), countProto_apply]
    have hc : ¬ (x = S ∧ x ≠ "DecodeFailure" ∧ x ≠ "Payload") := by
      rintro ⟨hx, n1, n2⟩
      subst hx
      rcases hS with h | h
      · exact n1 h
      · exact n2 h
    simp only [if_neg hc]

theorem sentOf_trafficSent (traffic : GoMap Traffic) (addr k : String) (n : Nat) :
    sentOf (trafficSent traffic addr n) k =
      if k = addr then (sentOf traffic addr + n) % u64 else sentOf traffic k := by
  unfold trafficSent sentOf
  by_cases hk : k = addr
  · subst hk
    cases hv : traffic k <;> simp [GoMap.set, hv]
  · cases hv : traffic addr <;> simp [GoMap.set, hv, hk]

theorem receivedOf_trafficSent (traffic : GoMap Traffic) (addr k : String) (n : Nat) :
    receivedOf (trafficSent traffic addr n) k = receivedOf traffic k := by
  unfold trafficSent receivedOf
  by_cases hk : k = addr
  · subst hk
    cases hv : traffic k <;> simp [GoMap.set, hv]
  · cases hv : traffic addr <;> simp [GoMap.set, hv, hk]

theorem receivedOf_trafficReceived (traffic : GoMap Traffic) (addr k : String) (n : Nat) :
    receivedOf (trafficReceived traffic addr n) k =
      if k = addr then (receivedOf traffic addr + n) % u64 else receivedOf traffic k := by
  unfold trafficReceived receivedOf
  by_cases hk : k = addr
  · subst hk
    cases hv : traffic k <;> simp [GoMap.set, hv]
  · cases hv : traffic addr <;> simp [GoMap.set, hv, hk]

theorem sentOf_trafficReceived (traffic : GoMap Traffic) (addr k : String) (n : Nat) :
    sentOf (trafficReceived traffic addr n) k = sentOf traffic k := by
  unfold trafficReceived sentOf
  by_cases hk : k = addr
  · subst hk
    cases hv : traffic k <;> simp [GoMap.set, hv]
  · cases hv : traffic addr <;> simp [GoMap.set, hv, hk]

/-- After the source-side update the entry of `addr` exists, and no entry is
ever removed. -/
theorem isSome_trafficSent (traffic : GoMap Traffic) (addr k : String) (n : Nat) :
    (trafficSent traffic addr n k).isSome = (decide (k = addr) || (traffic k).isSome) := by
  unfold trafficSent
  by_cases hk : k = addr
  · subst hk
    cases hv : traffic k <;> simp [GoMap.set, hv]
  · cases hv : traffic addr <;> simp [GoMap.set, hv, hk]

theorem isSome_trafficReceived (traffic : GoMap Traffic) (addr k : String) (n : Nat) :
    (trafficReceived traffic addr n k).isSome = (decide (k = addr) || (traffic k).isSome) := by
  unfold trafficReceived
  by_cases hk : k = addr
  · subst hk
    cases hv : traffic k <;> simp [GoMap.set, hv]
  · cases hv : traffic addr <;> simp [GoMap.set, hv, hk]

/-- The two endpoint checks touch only `Activities` and `Traffic`. -/
theorem checkSrc_frame (str : Bytes → String) (q : Queue) (eth : Ethernet) (ip4 : IPv4)
    (n : Nat) :
    (checkSrc str q eth ip4 n).iface = q.iface ∧
    (checkSrc str q eth ip4 n).handle = q.handle ∧
    (checkSrc str q eth ip4 n).active = q.active ∧
    (checkSrc str q eth ip4 n).Sent = q.Sent ∧
    (checkSrc str q eth ip4 n).Received = q.Received ∧
    (checkSrc str q eth ip4 n).PktReceived = q.PktReceived ∧
    (checkSrc str q eth ip4 n).Errors = q.Errors ∧
    (checkSrc str q eth ip4 n).Protos = q.Protos := by
  unfold checkSrc
  split <;> simp

theorem checkDst_frame (str : Bytes → String) (q : Queue) (eth : Ethernet) (ip4 : IPv4)
    (n : Nat) :
    (checkDst str q eth ip4 n).iface = q.iface ∧
    (checkDst str q eth ip4 n).handle = q.handle ∧
    (checkDst str q eth ip4 n).active = q.active ∧
    (checkDst str q eth ip4 n).Sent = q.Sent ∧
    (checkDst str q eth ip4 n).Received = q.Received ∧
    (checkDst str q eth ip4 n).PktReceived = q.PktReceived ∧
    (checkDst str q eth ip4 n).Errors = q.Errors ∧
    (checkDst str q eth ip4 n).Protos = q.Protos := by
  unfold checkDst
  split <;> simp

/-- One iteration of the worker touches neither the interface, the handle, the
`active` flag, `Sent` nor `Errors`; its effect on `PktReceived`, `Received` and
`Protos` does not depend on the endpoint checks. -/
theorem workerBody_frame (str : Bytes → String) (q : Queue) (pkt : Packet) :
    (workerBody str q pkt).iface = q.iface ∧
    (workerBody str q pkt).handle = q.handle ∧
    (workerBody str q pkt).active = q.active ∧
    (workerBody str q pkt).Sent = q.Sent ∧
    (workerBody str q pkt).Errors = q.Errors ∧
    (workerBody str q pkt).PktReceived = (q.PktReceived + 1) % u64 ∧
    (workerBody str q pkt).Received = (q.Received + pkt.Data.length) % u64 ∧
    (workerBody str q pkt).Protos = gatherProtos q.Protos pkt.Layers := by
  unfold workerBody
  split
  · simp only [checkDst_frame, checkSrc_frame, Nat.add_mod_mod, and_self]
  · simp only [Nat.add_mod_mod, and_self]

/-- With both views present, the activities and the traffic map after one
iteration: the source-side check runs first, then the destination-side one. -/
theorem workerBody_views (str : Bytes → String) (q : Queue) (pkt : Packet)
    (eth : Ethernet) (ip4 : IPv4) (he : pkt.Ethernet = some eth) (hi : pkt.IPv4 = some ip4) :
    (workerBody str q pkt).Activities =
      (q.Activities ++
        (if q.iface.IP ≠ ip4.SrcIP ∧ q.iface.Contains ip4.SrcIP = true then
          [{ IP := ip4.SrcIP, MAC := eth.SrcMAC, Source := true }] else [])) ++
        (if q.iface.IP ≠ ip4.DstIP ∧ q.iface.Contains ip4.DstIP = true then
          [{ IP := ip4.DstIP, MAC := eth.SrcMAC, Source := false }] else []) ∧
    (workerBody str q pkt).Traffic =
      (if q.iface.IP ≠ ip4.DstIP ∧ q.iface.Contains ip4.DstIP = true then
        trafficReceived
          (if q.iface.IP ≠ ip4.SrcIP ∧ q.iface.Contains ip4.SrcIP = true then
            trafficSent q.Traffic (str ip4.SrcIP) (pkt.Data.length % u64) else q.Traffic)
          (str ip4.DstIP) (pkt.Data.length % u64)
      else
        (if q.iface.IP ≠ ip4.SrcIP ∧ q.iface.Contains ip4.SrcIP = true then
          trafficSent q.Traffic (str ip4.SrcIP) (pkt.Data.length % u64) else q.Traffic)) := by
  unfold workerBody
  simp only [he, hi]
  unfold checkDst checkSrc
  by_cases hs : q.iface.IP ≠ ip4.SrcIP ∧ q.iface.Contains ip4.SrcIP = true <;>
    by_cases hd : q.iface.IP ≠ ip4.DstIP ∧ q.iface.Contains ip4.DstIP = true <;>
    simp [hs, hd]

/-- Without both views, one iteration publishes nothing and leaves the traffic
map alone. -/
theorem workerBody_no_views (str : Bytes → String) (q : Queue) (pkt : Packet)
    (h : pkt.Ethernet = none ∨ pkt.IPv4 = none) :
    (workerBody str q pkt).Activities = q.Activities ∧
    (workerBody str q pkt).Traffic = q.Traffic := by
  unfold workerBody
  cases he : pkt.Ethernet <;> cases hi : pkt.IPv4 <;> simp_all

/-- Neither `Send` nor `Stop` touches `Protos`, and neither sets `active`. -/
theorem Send_frame (q : Queue) (raw : Bytes) (werr : Option String) :
    (q.Send raw werr).1.Protos = q.Protos ∧ (q.Send raw werr).1.active = q.active := by
  unfold Queue.Send
  split
  · cases werr <;> simp
  · simp

/-- The queue after a packet is delivered: the worker body ran when the
worker is still running and the queue is active, and nothing happened
otherwise. -/
theorem step_packet_q (str : Bytes → String) (s : System) (pkt : Packet) :
    (System.step str s (Op.packet pkt)).q =
      if s.running = true ∧ s.q.active = true then workerBody str s.q pkt else s.q := by
  unfold System.step workerStep
  cases hr : s.running <;> cases ha : s.q.active <;> simp

theorem noSentinelKey_step (str : Bytes → String) (s : System) (op : Op)
    (h : noSentinelKey s.q) : noSentinelKey (System.step str s op).q := by
  cases op with
  | packet pkt =>
    rw [step_packet_q]
    split
    · unfold noSentinelKey
      rw [(workerBody_frame str s.q pkt).2.2.2.2.2.2.2,
        gatherProtos_sentinel _ (Or.inl rfl), gatherProtos_sentinel _ (Or.inr rfl)]
      exact h
    · exact h
  | send raw werr =>
    unfold System.step noSentinelKey
    rw [(Send_frame s.q raw werr).1]
    exact h
  | stop => exact h

theorem noSentinelKey_run (str : Bytes → String) (ops : List Op) :
    ∀ s : System, noSentinelKey s.q → noSentinelKey (System.run str s ops).q := by
  induction ops with
  | nil => intro s h; exact h
  | cons op rest ih =>
    intro s h
    exact ih (System.step str s op) (noSentinelKey_step str s op h)

/-- Once `active` is false, no operation sets it again. -/
theorem inactive_step (str : Bytes → String) (s : System) (op : Op)
    (h : s.q.active = false) : (System.step str s op).q.active = false := by
  cases op with
  | packet pkt =>
    rw [step_packet_q]
    split
    · rw [(workerBody_frame str s.q pkt).2.2.1]
      exact h
    · exact h
  | send raw werr =>
    unfold System.step
    rw [(Send_frame s.q raw werr).2]
    exact h
  | stop => rfl

theorem inactive_run (str : Bytes → String) (ops : List Op) :
    ∀ s : System, s.q.active = false → (System.run str s ops).q.active = false := by
  induction ops with
  | nil => intro s h; exact h
  | cons op rest ih =>
    intro s h
    exact ih (System.step str s op) (inactive_step str s op h)

/-- What `Send` does on an active queue when the write succeeds: the write is
recorded, no error is returned, `Errors` goes up by one and `Sent` stays. -/
theorem Send_write_ok (q : Queue) (raw : Bytes) (ha : q.active = true) :
    (q.Send raw none).2 = none ∧
    (q.Send raw none).1.Sent = q.Sent ∧
    (q.Send raw none).1.Errors = (q.Errors + 1) % u64 := by
  simp [Queue.Send, ha]

/-- What `Send` does on an active queue when the write fails with `err`: the
error is returned, `Sent` goes up by the length of `raw` and `Errors` stays. -/
theorem Send_write_failed (q : Queue) (raw : Bytes) (err : String) (ha : q.active = true) :
    (q.Send raw (some err)).2 = some err ∧
    (q.Send raw (some err)).1.Sent = (q.Sent + raw.length) % u64 ∧
    (q.Send raw (some err)).1.Errors = q.Errors := by
  simp [Queue.Send, ha]

/-- What the tests of lines 104 and 119 let through: one worker iteration on an
active queue completes, whatever the packet. If the IPv4 source address is
byte for byte the slice `iface.IP`, or is outside the subnet, no activity with
`Source = true` is published and under every key of `Traffic` the value of
`Sent` (0 for an absent key) is unchanged. The same holds for the destination
address with `Source = false` and `Received`. -/
theorem worker_skips_own_and_foreign (str : Bytes → String) (q : Queue) (pkt : Packet)
    (ha : q.active = true) :
    ∃ q1, workerStep str q pkt = some q1 ∧
      ((∀ ip4, pkt.IPv4 = some ip4 →
          q.iface.IP = ip4.SrcIP ∨ q.iface.Contains ip4.SrcIP = false) →
        (published q q1).filter (fun a => a.Source) = [] ∧
        ∀ k, sentOf q1.Traffic k = sentOf q.Traffic k) ∧
      ((∀ ip4, pkt.IPv4 = some ip4 →
          q.iface.IP = ip4.DstIP ∨ q.iface.Contains ip4.DstIP = false) →
        (published q q1).filter (fun a => !a.Source) = [] ∧
        ∀ k, receivedOf q1.Traffic k = receivedOf q.Traffic k) := by
  refine ⟨workerBody str q pkt, by simp [workerStep, ha], ?_, ?_⟩
  · intro hsrc
    cases he : pkt.Ethernet with
    | none =>
      obtain ⟨hA, hT⟩ := workerBody_no_views str q pkt (Or.inl he)
      simp [published, hA, hT]
    | some eth =>
      cases hi : pkt.IPv4 with
      | none =>
        obtain ⟨hA, hT⟩ := workerBody_no_views str q pkt (Or.inr hi)
        simp [published, hA, hT]
      | some ip4 =>
        obtain ⟨hA, hT⟩ := workerBody_views str q pkt eth ip4 he hi
        have hs : ¬ (q.iface.IP ≠ ip4.SrcIP ∧ q.iface.Contains ip4.SrcIP = true) := by
          rintro ⟨n1, n2⟩
          rcases hsrc ip4 hi with h | h
          · exact n1 h
          · rw [h] at n2; exact Bool.noConfusion n2
        unfold published
        rw [hA, hT, List.append_assoc, List.drop_left]
        by_cases hd : q.iface.IP ≠ ip4.DstIP ∧ q.iface.Contains ip4.DstIP = true
        · simp only [if_neg hs, if_pos hd]
          refine ⟨by simp, fun k => ?_⟩
          rw [sentOf_trafficReceived]
        · simp only [if_neg hs, if_neg hd]
          simp
  · intro hdst
    cases he : pkt.Ethernet with
    | none =>
      obtain ⟨hA, hT⟩ := workerBody_no_views str q pkt (Or.inl he)
      simp [published, hA, hT]
    | some eth =>
      cases hi : pkt.IPv4 with
      | none =>
        obtain ⟨hA, hT⟩ := workerBody_no_views str q pkt (Or.inr hi)
        simp [published, hA, hT]
      | some ip4 =>
        obtain ⟨hA, hT⟩ := workerBody_views str q pkt eth ip4 he hi
        have hd : ¬ (q.iface.IP ≠ ip4.DstIP ∧ q.iface.Contains ip4.DstIP = true) := by
          rintro ⟨n1, n2⟩
          rcases hdst ip4 hi with h | h
          · exact n1 h
          · rw [h] at n2; exact Bool.noConfusion n2
        unfold published
        rw [hA, hT, List.append_assoc, List.drop_left]
        by_cases hs : q.iface.IP ≠ ip4.SrcIP ∧ q.iface.Contains ip4.SrcIP = true
        · simp only [if_pos hs, if_neg hd]
          refine ⟨by simp, fun k => ?_⟩
          rw [receivedOf_trafficSent]
        · simp only [if_neg hs, if_neg hd]
          simp

/-- The same on `exQueue`: `exTunnel` goes from the interface address `10.0.0.1` to
`8.8.8.8`, outside the subnet, so nothing is published and no `Sent` or
`Received` value changes; `exPacket` goes from `10.0.0.5` to `8.8.8.8`, so no
activity with `Source = false` is published and no `Received` value changes. -/
theorem worker_skips_own_and_foreign_witness :
    (exQueue.active = true ∧
      exTunnel.IPv4 = some { SrcIP := exIface.IP, DstIP := [8, 8, 8, 8] } ∧
      exIface.Contains [8, 8, 8, 8] = false) ∧
    (∃ q1, workerStep dotted exQueue exTunnel = some q1 ∧
      published exQueue q1 = [] ∧
      (∀ k, sentOf q1.Traffic k = sentOf exQueue.Traffic k) ∧
      (∀ k, receivedOf q1.Traffic k = receivedOf exQueue.Traffic k)) ∧
    (∃ q1, workerStep dotted exQueue exPacket = some q1 ∧
      (published exQueue q1).filter (fun a => !a.Source) = [] ∧
      (∀ k, receivedOf q1.Traffic k = receivedOf exQueue.Traffic k)) := by
  refine ⟨by decide, ?_, ?_⟩
  · obtain ⟨q1, h1, hs, hd⟩ := worker_skips_own_and_foreign dotted exQueue exTunnel rfl
    have hs1 := hs (fun ip4 h => by
      have e : ip4 = { SrcIP := exIface.IP, DstIP := [8, 8, 8, 8] } :=
        (Option.some.inj h).symm
      subst e
      exact Or.inl rfl)
    have hd1 := hd (fun ip4 h => by
      have e : ip4 = { SrcIP := exIface.IP, DstIP := [8, 8, 8, 8] } :=
        (Option.some.inj h).symm
      subst e
      exact Or.inr rfl)
    refine ⟨q1, h1, ?_, hs1.2, hd1.2⟩
    have hall : ∀ l : List Activity,
        l.filter (fun a => a.Source) = [] → l.filter (fun a => !a.Source) = [] → l = [] := by
      intro l
      cases l with
      | nil => intro _ _; rfl
      | cons a rest =>
        intro f1 f2
        cases hsrc : a.Source
        · simp [List.filter, hsrc] at f2
        · simp [List.filter, hsrc] at f1
    exact hall _ hs1.1 hd1.1
  · obtain ⟨q1, h1, _, hd⟩ := worker_skips_own_and_foreign dotted exQueue exPacket rfl
    have hd1 := hd (fun ip4 h => by
      have e : ip4 = { SrcIP := [10, 0, 0, 5], DstIP := [8, 8, 8, 8] } :=
        (Option.some.inj h).symm
      subst e
      exact Or.inr rfl)
    exact ⟨q1, h1, hd1.1, hd1.2⟩

/-- The coarse step of `System` is the fine grain with no event between the
test of line 74 and the rest of the iteration. -/
theorem Sched_receive_process (str : Bytes → String) (q : Queue) (running : Bool)
    (pkt : Packet) :
    (Sched.step str
      (Sched.step str { q := q, running := running, pending := none } (Event.receive pkt))
      Event.process).q =
    (System.step str { q := q, running := running } (Op.packet pkt)).q := by
  rw [step_packet_q]
  unfold Sched.step
  cases running <;> cases ha : q.active <;> simp [ha]

/-! ## The claims -/

/-- C1, evaluated on the code: on the active queue `exQueue` (all counters zero)
a `Send` of the four bytes `exRaw` whose write succeeds returns no error, yet
`Sent` is still `0` and `Errors` is `1`, where the claim has `Sent = 4` and
`Errors = 0`. -/
theorem Send_success_raises_Errors :
    exQueue.active = true ∧ exQueue.Sent = 0 ∧ exQueue.Errors = 0 ∧ exRaw.length = 4 ∧
    (exQueue.Send exRaw none).2 = none ∧
    (exQueue.Send exRaw none).1.handle.writes = [exRaw] ∧
    (exQueue.Send exRaw none).1.Sent = 0 ∧
    (exQueue.Send exRaw none).1.Errors = 1 := by
  decide

/-- C2, evaluated on the code: on the active queue `exQueue` (all counters zero)
a `Send` of the four bytes `exRaw` whose write fails with the error `"write failed"`
returns that error, yet `Errors` is still `0` and `Sent` is `4`, where the
claim has `Errors = 1` and `Sent = 0`. -/
theorem Send_failure_raises_Sent :
    exQueue.active = true ∧ exQueue.Sent = 0 ∧ exQueue.Errors = 0 ∧ exRaw.length = 4 ∧
    (exQueue.Send exRaw (some "write failed")).2 = some "write failed" ∧
    (exQueue.Send exRaw (some "write failed")).1.handle.writes = [exRaw] ∧
    (exQueue.Send exRaw (some "write failed")).1.Sent = 4 ∧
    (exQueue.Send exRaw (some "write failed")).1.Errors = 0 := by
  decide

/-- C3: in every state reached from a call of `Stop` by any further operations,
`Send` returns the queue-inactive error and the whole state is the one it was
called on: no write is recorded on the handle, and `Sent`, `Received`,
`PktReceived`, `Errors`, `Protos` and `Traffic` are unchanged. -/
theorem Send_after_Stop_is_refused (str : Bytes → String) (s : System) (ops : List Op)
    (raw : Bytes) (werr : Option String) :
    ((System.run str (System.step str s Op.stop) ops).q.Send raw werr).2 = some inactiveError ∧
    ((System.run str (System.step str s Op.stop) ops).q.Send raw werr).1 =
      (System.run str (System.step str s Op.stop) ops).q := by
  have h : (System.run str (System.step str s Op.stop) ops).q.active = false :=
    inactive_run str ops (System.step str s Op.stop) rfl
  simp [Queue.Send, h]

/-- C4: one worker iteration on an active queue completes, whatever the packet,
and in the resulting state `PktReceived` is the old value plus 1 and `Received`
is the old value plus the length of the packet data, both in `uint64`
arithmetic. -/
theorem worker_counts_every_packet (str : Bytes → String) (q : Queue) (pkt : Packet)
    (ha : q.active = true) :
    ∃ q1, workerStep str q pkt = some q1 ∧
      q1.PktReceived = (q.PktReceived + 1) % u64 ∧
      q1.Received = (q.Received + pkt.Data.length) % u64 := by
  refine ⟨workerBody str q pkt, by simp [workerStep, ha], ?_, ?_⟩
  · exact (workerBody_frame str q pkt).2.2.2.2.2.1
  · exact (workerBody_frame str q pkt).2.2.2.2.2.2.1

/-- C4 at `exPacket` (100 bytes) on `exQueue`. -/
theorem worker_counts_every_packet_witness :
    exQueue.active = true ∧
    ∃ q1, workerStep dotted exQueue exPacket = some q1 ∧
      q1.PktReceived = (exQueue.PktReceived + 1) % u64 ∧
      q1.Received = (exQueue.Received + exPacket.Data.length) % u64 :=
  ⟨rfl, worker_counts_every_packet dotted exQueue exPacket rfl⟩

/-- C5 as stated fails: `exTunnel` has the layer names Ethernet, IPv4, IPv4,
Payload; `IPv4` is not a sentinel name and is absent from `Protos` before the
iteration, and after it `Protos["IPv4"]` is `2`, not `0 + 1`. -/
theorem Protos_grows_by_two_on_tunnel :
    exQueue.active = true ∧ "IPv4" ∈ exTunnel.Layers ∧
    "IPv4" ≠ "DecodeFailure" ∧ "IPv4" ≠ "Payload" ∧
    exQueue.Protos "IPv4" = none ∧
    (workerStep dotted exQueue exTunnel).map (fun q1 => q1.Protos "IPv4") = some (some 2) ∧
    (workerStep dotted exQueue exTunnel).map (fun q1 => q1.Protos "IPv4") ≠
      some (some (0 + 1)) := by
  decide

/-- C5, amended: one worker iteration on an active queue completes, and for
every name `P` other than `DecodeFailure` and `Payload` among the layer names
of the packet, `Protos[P]` afterwards is its old value (0 when absent) plus
the number of occurrences of `P` among the layer names, in `uint64`
arithmetic. -/
theorem worker_counts_layer_occurrences (str : Bytes → String) (q : Queue) (pkt : Packet)
    (P : String) (ha : q.active = true) (hP : P ∈ pkt.Layers)
    (h1 : P ≠ "DecodeFailure") (h2 : P ≠ "Payload") :
    ∃ q1, workerStep str q pkt = some q1 ∧
      q1.Protos P = some (((q.Protos P).getD 0 + pkt.Layers.count P) % u64) := by
  refine ⟨workerBody str q pkt, by simp [workerStep, ha], ?_⟩
  rw [(workerBody_frame str q pkt).2.2.2.2.2.2.2, gatherProtos_apply P h1 h2]
  have hc : ¬ (List.count P pkt.Layers = 0) := by
    intro h0
    exact (List.count_pos_iff.mpr hP).ne (h0.symm)
  rw [if_neg hc]

/-- C5 amended, at `exTunnel` and the name `IPv4` on `exQueue`. -/
theorem worker_counts_layer_occurrences_witness :
    (exQueue.active = true ∧ "IPv4" ∈ exTunnel.Layers ∧
      "IPv4" ≠ "DecodeFailure" ∧ "IPv4" ≠ "Payload") ∧
    ∃ q1, workerStep dotted exQueue exTunnel = some q1 ∧
      q1.Protos "IPv4" =
        some (((exQueue.Protos "IPv4").getD 0 + exTunnel.Layers.count "IPv4") % u64) :=
  ⟨by decide,
    worker_counts_layer_occurrences dotted exQueue exTunnel "IPv4" rfl (by decide)
      (by decide) (by decide)⟩

/-- C6: one worker iteration on an active queue, on a packet with both an
Ethernet and an IPv4 view, completes. If the source address differs from the
interface address and is in the subnet, the activities published with
`Source = true` are exactly the one activity of the source address with the
Ethernet source MAC, the entry of the source address exists in `Traffic`, and
its `Sent` is the old value (0 when absent) plus the packet length in `uint64`
arithmetic. The same holds for the destination address with `Source = false`
and `Received`. -/
theorem worker_reports_local_endpoints (str : Bytes → String) (q : Queue) (pkt : Packet)
    (eth : Ethernet) (ip4 : IPv4) (ha : q.active = true)
    (he : pkt.Ethernet = some eth) (hi : pkt.IPv4 = some ip4) :
    ∃ q1, workerStep str q pkt = some q1 ∧
      ((q.iface.IP ≠ ip4.SrcIP ∧ q.iface.Contains ip4.SrcIP = true) →
        (published q q1).filter (fun a => a.Source) =
          [{ IP := ip4.SrcIP, MAC := eth.SrcMAC, Source := true }] ∧
        (q1.Traffic (str ip4.SrcIP)).isSome = true ∧
        sentOf q1.Traffic (str ip4.SrcIP) =
          (sentOf q.Traffic (str ip4.SrcIP) + pkt.Data.length) % u64) ∧
      ((q.iface.IP ≠ ip4.DstIP ∧ q.iface.Contains ip4.DstIP = true) →
        (published q q1).filter (fun a => !a.Source) =
          [{ IP := ip4.DstIP, MAC := eth.SrcMAC, Source := false }] ∧
        (q1.Traffic (str ip4.DstIP)).isSome = true ∧
        receivedOf q1.Traffic (str ip4.DstIP) =
          (receivedOf q.Traffic (str ip4.DstIP) + pkt.Data.length) % u64) := by
  obtain ⟨hA, hT⟩ := workerBody_views str q pkt eth ip4 he hi
  refine ⟨workerBody str q pkt, by simp [workerStep, ha], ?_, ?_⟩
  · intro hs
    unfold published
    rw [hA, hT, List.append_assoc, List.drop_left]
    by_cases hd : q.iface.IP ≠ ip4.DstIP ∧ q.iface.Contains ip4.DstIP = true
    · simp only [if_pos hs, if_pos hd]
      rw [isSome_trafficReceived, isSome_trafficSent, sentOf_trafficReceived,
        sentOf_trafficSent]
      simp
    · simp only [if_pos hs, if_neg hd]
      rw [isSome_trafficSent, sentOf_trafficSent]
      simp
  · intro hd
    unfold published
    rw [hA, hT, List.append_assoc, List.drop_left]
    by_cases hs : q.iface.IP ≠ ip4.SrcIP ∧ q.iface.Contains ip4.SrcIP = true
    · simp only [if_pos hs, if_pos hd]
      rw [isSome_trafficReceived, receivedOf_trafficReceived, receivedOf_trafficSent]
      simp
    · simp only [if_neg hs, if_pos hd]
      rw [isSome_trafficReceived, receivedOf_trafficReceived]
      simp

/-- C6 on the interface `10.0.0.1` of `10.0.0.0/24`: the 100-byte packet from
`10.0.0.5` to `8.8.8.8` publishes the one activity of `10.0.0.5` with
`Source = true` and `Traffic["10.0.0.5"].Sent` becomes 100; the 80-byte packet
from `10.0.0.5` to `10.0.0.7` publishes one activity for each side. -/
theorem worker_reports_local_endpoints_witness :
    (exQueue.active = true ∧
      exPacket.Ethernet = some { SrcMAC := [0, 17, 34, 51, 68, 85] } ∧
      exPacket.IPv4 = some { SrcIP := [10, 0, 0, 5], DstIP := [8, 8, 8, 8] } ∧
      exLocal.Ethernet = some { SrcMAC := [0, 17, 34, 51, 68, 85] } ∧
      exLocal.IPv4 = some { SrcIP := [10, 0, 0, 5], DstIP := [10, 0, 0, 7] }) ∧
    (∃ q1, workerStep dotted exQueue exPacket = some q1 ∧
      (published exQueue q1).filter (fun a => a.Source) =
        [{ IP := [10, 0, 0, 5], MAC := [0, 17, 34, 51, 68, 85], Source := true }] ∧
      (q1.Traffic "10.0.0.5").isSome = true ∧
      sentOf q1.Traffic "10.0.0.5" = 100) ∧
    (∃ q1, workerStep dotted exQueue exLocal = some q1 ∧
      (published exQueue q1).filter (fun a => a.Source) =
        [{ IP := [10, 0, 0, 5], MAC := [0, 17, 34, 51, 68, 85], Source := true }] ∧
      sentOf q1.Traffic "10.0.0.5" = 80 ∧
      (published exQueue q1).filter (fun a => !a.Source) =
        [{ IP := [10, 0, 0, 7], MAC := [0, 17, 34, 51, 68, 85], Source := false }] ∧
      receivedOf q1.Traffic "10.0.0.7" = 80) := by
  refine ⟨by decide, ?_, ?_⟩
  · obtain ⟨q1, h1, hs, _⟩ :=
      worker_reports_local_endpoints dotted exQueue exPacket _ _ rfl rfl rfl
    exact ⟨q1, h1, hs ⟨by decide, by decide⟩⟩
  · obtain ⟨q1, h1, hs, hd⟩ :=
      worker_reports_local_endpoints dotted exQueue exLocal _ _ rfl rfl rfl
    have hs1 := hs ⟨by decide, by decide⟩
    have hd1 := hd ⟨by decide, by decide⟩
    exact ⟨q1, h1, hs1.1, hs1.2.2, hd1.1, hd1.2.2⟩

/-- C7, evaluated on the code: the interface address `10.0.0.1` is held in the
16-byte form and the 80-byte packet `exOwn` has the source address `10.0.0.1`
in the 4-byte form, so the source address equals the interface address
(`net.IP.Equal`), yet the comparison of line 104 is on the bytes and lets it
through: the iteration publishes an activity with `Source = true` for
`10.0.0.1` and `Traffic["10.0.0.1"].Sent` goes from 0 to 80, where the claim
has no such activity and no change of `Sent`. -/
theorem worker_reports_own_address_in_long_form :
    exQueue16.active = true ∧
    exOwn.Ethernet = some { SrcMAC := [0, 17, 34, 51, 68, 85] } ∧
    exOwn.IPv4 = some { SrcIP := [10, 0, 0, 1], DstIP := [8, 8, 8, 8] } ∧
    IPEqual exQueue16.iface.IP [10, 0, 0, 1] = true ∧
    exQueue16.iface.IP ≠ [10, 0, 0, 1] ∧
    sentOf exQueue16.Traffic "10.0.0.1" = 0 ∧
    (workerStep dotted exQueue16 exOwn).map
        (fun q1 => (published exQueue16 q1).filter (fun a => a.Source)) =
      some [{ IP := [10, 0, 0, 1], MAC := [0, 17, 34, 51, 68, 85], Source := true }] ∧
    (workerStep dotted exQueue16 exOwn).map (fun q1 => sentOf q1.Traffic "10.0.0.1") =
      some 80 := by
  decide

/-- C8 as stated fails: on `exQueue` the second `Stop` calls `Close` on the
handle again (two calls recorded after it, one after the first `Stop`), so the
state is not the one the first `Stop` left. -/
theorem Stop_twice_closes_twice :
    exQueue.Stop.handle.closes = 1 ∧ exQueue.Stop.Stop.handle.closes = 2 ∧
    exQueue.Stop.Stop.handle ≠ exQueue.Stop.handle := by
  decide

/-- C8, amended: a second `Stop` leaves `active` false and every counter, both
maps, the published activities and the recorded writes exactly as the first
`Stop` left them; it calls `Close` on the handle once more. -/
theorem Stop_twice_keeps_counters (q : Queue) :
    q.Stop.Stop.active = false ∧ q.Stop.active = false ∧
    q.Stop.Stop.Sent = q.Stop.Sent ∧
    q.Stop.Stop.Received = q.Stop.Received ∧
    q.Stop.Stop.PktReceived = q.Stop.PktReceived ∧
    q.Stop.Stop.Errors = q.Stop.Errors ∧
    q.Stop.Stop.Protos = q.Stop.Protos ∧
    q.Stop.Stop.Traffic = q.Stop.Traffic ∧
    q.Stop.Stop.Activities = q.Stop.Activities ∧
    q.Stop.Stop.iface = q.Stop.iface ∧
    q.Stop.Stop.handle.writes = q.Stop.handle.writes ∧
    q.Stop.Stop.handle.closes = q.Stop.handle.closes + 1 := by
  simp [Queue.Stop]

/-- C9: in every state reached from a queue returned by `NewQueue` by any
sequence of delivered packets, `Send` calls and `Stop` calls, neither
`DecodeFailure` nor `Payload` is a key of `Protos`. -/
theorem Protos_has_no_sentinel_key (str : Bytes → String) (iface : Endpoint)
    (openErr : Option String) (q : Queue) (ops : List Op)
    (h : NewQueue iface openErr = Except.ok q) :
    (System.run str (System.start q) ops).q.Protos "DecodeFailure" = none ∧
    (System.run str (System.start q) ops).q.Protos "Payload" = none := by
  have hq : q = Queue.init iface := by
    cases openErr with
    | none => simp only [NewQueue, Except.ok.injEq] at h; exact h.symm
    | some err => simp [NewQueue] at h
  subst hq
  exact noSentinelKey_run str ops (System.start (Queue.init iface)) ⟨rfl, rfl⟩

/-- C9 on `exQueue`, over a packet with a `Payload` layer, a `Send`, a `Stop`
and a second packet. -/
theorem Protos_has_no_sentinel_key_witness :
    NewQueue exIface none = Except.ok exQueue ∧
    (System.run dotted (System.start exQueue)
      [Op.packet exPacket, Op.send exRaw none, Op.stop, Op.packet exTunnel]).q.Protos
        "DecodeFailure" = none ∧
    (System.run dotted (System.start exQueue)
      [Op.packet exPacket, Op.send exRaw none, Op.stop, Op.packet exTunnel]).q.Protos
        "Payload" = none :=
  ⟨rfl, Protos_has_no_sentinel_key dotted exIface none exQueue
    [Op.packet exPacket, Op.send exRaw none, Op.stop, Op.packet exTunnel] rfl⟩

end packets
